import Mathlib

/-!
Shallow embedding of the ESP32 SolarCharge firmware
(src/firmware/esp32-solar-charge/src/main.cpp with constants from
src/firmware/esp32-solar-charge/src/config.h).

Modelling conventions:
* Machine floats (`float`/`double`) are modelled as exact rationals (ℚ);
  the C literal 3.3 is the rational 33/10, 0.185 is 185/1000.
* Global mutable state (relay1State, relay2State and the two relay GPIO
  output levels) is a `DeviceState` record threaded explicitly.
* Externally visible side effects (digitalWrite on a relay pin, MQTT
  publishes, HTTP POSTs, ADC reads, connect attempts, delays) are recorded
  in an event trace (`List Event`) in program order.  Serial console prints
  are diagnostics only (the spec excludes them from the contract) and are
  not modelled.
* Environment reads (mqttClient.connected(), WiFi.status(), millis(),
  analogRead/digitalRead, the result of each connect attempt) are passed
  in as parameters.
* The unbounded `while` loops (reconnectMQTT, and loop() calling it) are
  modelled with explicit fuel; running out of fuel means the C code is
  still blocked inside the loop at that point.
-/

namespace SolarCharge

/-- config.h: MQTT topic for status publishes. -/
def MQTT_TOPIC_STATUS : String := "station/001/status"

/-- config.h: MQTT topic subscribed for inbound relay commands. -/
def MQTT_TOPIC_CONTROL : String := "station/001/control"

/-- config.h: MQTT topic for periodic sensor publishes. -/
def MQTT_TOPIC_SENSOR_DATA : String := "station/001/sensor"

/-- config.h: backend URL of the HTTP fallback. -/
def API_BASE_URL : String := "http://your-backend-url.com/api/sensor-data"

/-- config.h: solar panel voltage divider ratio (11.0). -/
def SOLAR_VOLTAGE_RATIO : ℚ := 11

/-- config.h: battery voltage divider ratio (11.0). -/
def BATTERY_VOLTAGE_RATIO : ℚ := 11

/-- config.h: ACS712 current sensor sensitivity (0.185 V per A). -/
def CURRENT_SENSOR_RATIO : ℚ := 185 / 1000

/-- config.h pin assignments. -/
def SOLAR_VOLTAGE_PIN : Nat := 34

def SOLAR_CURRENT_PIN : Nat := 35

def BATTERY_VOLTAGE_PIN : Nat := 32

def CHARGE_STATUS_PIN : Nat := 33

def RELAY_1_PIN : Nat := 26

def RELAY_2_PIN : Nat := 27

/-- config.h: sensor sample period in ms (5000). -/
def SENSOR_READ_INTERVAL : Nat := 5000

/-- Status payload (main.cpp publishStatus): relay1, relay2, timestamp. -/
structure StatusPayload where
  relay1 : Bool
  relay2 : Bool
  timestamp : Nat
deriving DecidableEq

/-- Sensor payload (main.cpp publishSensorData JSON document). -/
structure SensorPayload where
  solarVoltage : ℚ
  solarCurrent : ℚ
  batteryVoltage : ℚ
  chargeStatus : Nat
  relay1State : Bool
  relay2State : Bool
  timestamp : Nat
deriving DecidableEq

/-- HTTP fallback payload (main.cpp sendDataToAPI JSON document): the
sensor payload minus the relay fields. -/
structure ApiPayload where
  solarVoltage : ℚ
  solarCurrent : ℚ
  batteryVoltage : ℚ
  chargeStatus : Nat
  timestamp : Nat
deriving DecidableEq

/-- The firmware's global mutable state that the claims are about: the two
cached relay flags (main.cpp lines 22-23) and the two relay GPIO output
levels (HIGH = true). -/
structure DeviceState where
  relay1State : Bool
  relay2State : Bool
  pinRelay1 : Bool
  pinRelay2 : Bool
deriving DecidableEq

/-- Boot state: setup() drives both relay pins LOW and both cached flags
start false (main.cpp lines 22-23 and 50-51). -/
def bootState : DeviceState :=
  { relay1State := false, relay2State := false,
    pinRelay1 := false, pinRelay2 := false }

/-- Externally visible effects, recorded in program order. -/
inductive Event where
  | gpioWrite (pin : Nat) (level : Bool)
  | statusPublish (topic : String) (p : StatusPayload)
  | sensorPublish (topic : String) (p : SensorPayload)
  | httpPost (url : String) (p : ApiPayload)
  | analogSample (pin : Nat)
  | digitalSample (pin : Nat)
  | connectAttempt
  | subscribeTopic (t : String)
  | delayMs (ms : Nat)
deriving DecidableEq

def isGpioWrite : Event → Bool
  | Event.gpioWrite _ _ => true
  | _ => false

def isStatusPublish : Event → Bool
  | Event.statusPublish _ _ => true
  | _ => false

def isSensorPublish : Event → Bool
  | Event.sensorPublish _ _ => true
  | _ => false

def isHttpPost : Event → Bool
  | Event.httpPost _ _ => true
  | _ => false

def isAnalogSample : Event → Bool
  | Event.analogSample _ => true
  | _ => false

def isDelay : Event → Bool
  | Event.delayMs _ => true
  | _ => false

/-- main.cpp publishStatus (lines 232-248): early return when the MQTT
client is not connected; otherwise publish the current relay flags and
millis() on the status topic.  `connected` is the value read from
mqttClient.connected(), `now` the value of millis(). -/
def publishStatus (connected : Bool) (now : Nat) (s : DeviceState) :
    List Event :=
  if connected = false then []
  else [Event.statusPublish MQTT_TOPIC_STATUS
          { relay1 := s.relay1State, relay2 := s.relay2State,
            timestamp := now }]

/-- main.cpp handleRelayControl (lines 149-170): four-way string dispatch;
each recognised command writes the relay GPIO and then updates the cached
flag; the final if-less call to publishStatus runs on EVERY message,
recognised or not. -/
def handleRelayControl (connected : Bool) (now : Nat) (s : DeviceState)
    (message : String) : DeviceState × List Event :=
  let step :=
    if message = "relay1_on" then
      ({ s with pinRelay1 := true, relay1State := true },
       [Event.gpioWrite RELAY_1_PIN true])
    else if message = "relay1_off" then
      ({ s with pinRelay1 := false, relay1State := false },
       [Event.gpioWrite RELAY_1_PIN false])
    else if message = "relay2_on" then
      ({ s with pinRelay2 := true, relay2State := true },
       [Event.gpioWrite RELAY_2_PIN true])
    else if message = "relay2_off" then
      ({ s with pinRelay2 := false, relay2State := false },
       [Event.gpioWrite RELAY_2_PIN false])
    else (s, [])
  (step.1, step.2 ++ publishStatus connected now step.1)

/-- main.cpp mqttCallback (lines 130-147): rebuild the payload bytes into a
string, and dispatch to handleRelayControl only when the topic equals the
control topic. -/
def mqttCallback (connected : Bool) (now : Nat) (s : DeviceState)
    (topic : String) (payload : List Char) : DeviceState × List Event :=
  let message := String.mk payload
  if topic = MQTT_TOPIC_CONTROL then
    handleRelayControl connected now s message
  else (s, [])

/-- The four raw inputs read by readSensors / publishSensorData:
three analogRead values (0..4095) and one digitalRead value (0/1). -/
structure SensorInputs where
  solarVoltageRaw : Nat
  solarCurrentRaw : Nat
  batteryVoltageRaw : Nat
  chargeStatus : Nat
deriving DecidableEq

/-- main.cpp sendDataToAPI (lines 250-275): silent early return when
WiFi.status() != WL_CONNECTED; otherwise POST the JSON body to the
configured URL.  The C function returns void; the HTTP response code is
only inspected for the serial log (see apiSuccessIndicator). -/
def sendDataToAPI (wifiConnected : Bool) (now : Nat)
    (solarVoltage solarCurrent batteryVoltage : ℚ) (chargeStatus : Nat) :
    List Event :=
  if wifiConnected = false then []
  else [Event.httpPost API_BASE_URL
          { solarVoltage := solarVoltage, solarCurrent := solarCurrent,
            batteryVoltage := batteryVoltage, chargeStatus := chargeStatus,
            timestamp := now }]

/-- main.cpp line 268: the condition sendDataToAPI branches on to log
"Data sent to API successfully" — any positive HTTP response code. -/
def apiSuccessIndicator (httpResponseCode : Int) : Bool :=
  0 < httpResponseCode

/-- Modelled from the spec: "Any 2xx indicates success; other codes and
transport errors are ignored" — the success criterion the spec ascribes to
the HTTP fallback, for comparison with apiSuccessIndicator. -/
def spec_apiSuccess (httpResponseCode : Int) : Bool :=
  200 ≤ httpResponseCode && httpResponseCode < 300

/-- main.cpp readSensors (lines 172-196): four pin reads, the fixed linear
calibration (lines 180-182), a serial dump (not modelled), then the HTTP
fallback POST. -/
def readSensors (wifiConnected : Bool) (now : Nat) (inp : SensorInputs) :
    List Event :=
  let solarVoltage :=
    ((inp.solarVoltageRaw : ℚ) * (33 / 10) / 4095) * SOLAR_VOLTAGE_RATIO
  let solarCurrent :=
    ((inp.solarCurrentRaw : ℚ) * (33 / 10) / 4095) / CURRENT_SENSOR_RATIO
  let batteryVoltage :=
    ((inp.batteryVoltageRaw : ℚ) * (33 / 10) / 4095) * BATTERY_VOLTAGE_RATIO
  [Event.analogSample SOLAR_VOLTAGE_PIN,
   Event.analogSample SOLAR_CURRENT_PIN,
   Event.analogSample BATTERY_VOLTAGE_PIN,
   Event.digitalSample CHARGE_STATUS_PIN] ++
  sendDataToAPI wifiConnected now solarVoltage solarCurrent batteryVoltage
    inp.chargeStatus

/-- main.cpp publishSensorData (lines 198-230): early return when the MQTT
client is not connected; otherwise re-sample the four pins, apply the same
calibration (lines 207-209), and publish the JSON payload (including the
two relay flags) on the sensor topic. -/
def publishSensorData (connected : Bool) (now : Nat) (s : DeviceState)
    (inp : SensorInputs) : List Event :=
  if connected = false then []
  else
    let solarVoltage :=
      ((inp.solarVoltageRaw : ℚ) * (33 / 10) / 4095) * SOLAR_VOLTAGE_RATIO
    let solarCurrent :=
      ((inp.solarCurrentRaw : ℚ) * (33 / 10) / 4095) / CURRENT_SENSOR_RATIO
    let batteryVoltage :=
      ((inp.batteryVoltageRaw : ℚ) * (33 / 10) / 4095) * BATTERY_VOLTAGE_RATIO
    [Event.analogSample SOLAR_VOLTAGE_PIN,
     Event.analogSample SOLAR_CURRENT_PIN,
     Event.analogSample BATTERY_VOLTAGE_PIN,
     Event.digitalSample CHARGE_STATUS_PIN,
     Event.sensorPublish MQTT_TOPIC_SENSOR_DATA
       { solarVoltage := solarVoltage, solarCurrent := solarCurrent,
         batteryVoltage := batteryVoltage, chargeStatus := inp.chargeStatus,
         relay1State := s.relay1State, relay2State := s.relay2State,
         timestamp := now }]

/-- main.cpp reconnectMQTT (lines 110-128): `while (!mqttClient.connected())
{ attempt; if ok subscribe (loop then exits) else delay(5000); }`.
`connectResult k` is the outcome of the k-th connect attempt; `fuel` bounds
how many loop iterations we unfold.  Returns (returned?, attempts made,
trace); `returned? = false` means the C function is still inside the while
loop after `fuel` iterations. -/
def reconnectMQTT (connectResult : Nat → Bool) (k fuel : Nat) :
    Bool × Nat × List Event :=
  match fuel with
  | 0 => (false, 0, [])
  | fuel + 1 =>
    if connectResult k then
      (true, 1, [Event.connectAttempt,
                 Event.subscribeTopic MQTT_TOPIC_CONTROL])
    else
      let r := reconnectMQTT connectResult (k + 1) fuel
      (r.1, r.2.1 + 1,
       Event.connectAttempt :: Event.delayMs 5000 :: r.2.2)

/-- main.cpp setupWiFi (lines 82-102): `while (status != WL_CONNECTED &&
attempts < 20) { delay(500); attempts++; }`.  `wifiStatus k` is the
connectedness observed at the check made after k delays.  Returns the
number of loop iterations executed (each one a 500 ms delay). -/
def setupWiFiLoop (wifiStatus : Nat → Bool) (attempts remaining : Nat) :
    Nat :=
  match remaining with
  | 0 => attempts
  | r + 1 =>
    if wifiStatus attempts then attempts
    else setupWiFiLoop wifiStatus (attempts + 1) r

/-- setupWiFi: total attempts made and total milliseconds spent in
delay(500) calls. -/
def setupWiFi (wifiStatus : Nat → Bool) : Nat × Nat :=
  let attempts := setupWiFiLoop wifiStatus 0 20
  (attempts, 500 * attempts)

/-- main.cpp setup (lines 37-60): pin initialisation drives both relay
pins LOW, then setupWiFi runs (bounded), then setupMQTT (non-blocking
configuration).  Boot yields the boot state and the Wi-Fi attempt count;
being a total function, it completes for every wifiStatus sequence. -/
def setupBoot (wifiStatus : Nat → Bool) : DeviceState × Nat × Nat :=
  (bootState, setupWiFi wifiStatus)

/-- Unsigned 32-bit difference `a - b` as computed on `unsigned long`
millis() values (loop lines 70 and 76). -/
def udiff (a b : Nat) : Nat :=
  (a % 2 ^ 32 + 2 ^ 32 - b % 2 ^ 32) % 2 ^ 32

/-- The scheduler state held across loop() iterations (main.cpp lines
22-25): device state plus the two tick clocks. -/
structure FullState where
  dev : DeviceState
  lastSensorRead : Nat
  lastMqttPublish : Nat
deriving DecidableEq

/-- Environment inputs consumed by one loop() iteration. -/
structure LoopEnv where
  /-- mqttClient.connected() at the top of loop (line 64). -/
  mqttConnected : Bool
  /-- outcome of the k-th connect attempt inside reconnectMQTT. -/
  connectResult : Nat → Bool
  /-- mqttClient.connected() as re-read later in the same iteration
  (inside publishStatus / publishSensorData); the link can drop during
  mqttClient.loop(). -/
  connectedDuringTick : Bool
  /-- inbound messages mqttClient.loop() delivers this iteration. -/
  inbound : List (String × List Char)
  /-- millis() during this iteration (one tick instant). -/
  now : Nat
  /-- WiFi.status() == WL_CONNECTED. -/
  wifiConnected : Bool
  /-- the raw ADC / digital reads of this iteration. -/
  sensors : SensorInputs

/-- mqttClient.loop(): deliver each inbound message to mqttCallback in
order, threading the device state. -/
def serviceInbound (connected : Bool) (now : Nat) :
    DeviceState → List (String × List Char) → DeviceState × List Event
  | s, [] => (s, [])
  | s, (t, p) :: rest =>
    let r1 := mqttCallback connected now s t p
    let r2 := serviceInbound connected now r1.1 rest
    (r2.1, r1.2 ++ r2.2)

/-- main.cpp loop (lines 62-80): reconnect if disconnected (blocking),
service the client, then the 5 s sample tick and the 10 s publish tick.
Returns (iteration completed?, new state, trace); completed? = false means
the iteration is still blocked inside reconnectMQTT after `fuel` attempts,
with neither tick reached. -/
def loopIter (env : LoopEnv) (fuel : Nat) (st : FullState) :
    Bool × FullState × List Event :=
  let recon :=
    if env.mqttConnected then (true, 0, ([] : List Event))
    else reconnectMQTT env.connectResult 0 fuel
  if recon.1 = false then (false, st, recon.2.2)
  else
    let svc := serviceInbound env.connectedDuringTick env.now st.dev
      env.inbound
    let afterSvc : FullState := { st with dev := svc.1 }
    let sample :=
      if SENSOR_READ_INTERVAL ≤ udiff env.now afterSvc.lastSensorRead then
        ({ afterSvc with lastSensorRead := env.now },
         readSensors env.wifiConnected env.now env.sensors)
      else (afterSvc, [])
    let publish :=
      if 10000 ≤ udiff env.now sample.1.lastMqttPublish then
        ({ sample.1 with lastMqttPublish := env.now },
         publishSensorData env.connectedDuringTick env.now sample.1.dev
           env.sensors)
      else (sample.1, [])
    (true, publish.1, recon.2.2 ++ svc.2 ++ sample.2 ++ publish.2)

/-- Round a rational to the nearest thousandth, returned as an integer
count of thousandths (round half up), for checking values quoted to three
decimals. -/
def roundMilli (q : ℚ) : ℤ :=
  ⌊q * 1000 + 1 / 2⌋

/-- Extract the sensor payloads published in a trace. -/
def sensorPayloads (evs : List Event) : List SensorPayload :=
  evs.filterMap fun e =>
    match e with
    | Event.sensorPublish _ p => some p
    | _ => none

/-- The trace reconnectMQTT produces across n failed iterations: a connect
attempt followed by a 5 s delay, each iteration. -/
def failTrace : Nat → List Event
  | 0 => []
  | n + 1 => Event.connectAttempt :: Event.delayMs 5000 :: failTrace n

/-- Broker-outage scenario environment: transport disconnected, broker
unreachable, Wi-Fi up, both ticks due at millis() = 10000. -/
def outageEnv : LoopEnv :=
  { mqttConnected := false, connectResult := fun _ => false,
    connectedDuringTick := false, inbound := [], now := 10000,
    wifiConnected := true,
    sensors := { solarVoltageRaw := 2048, solarCurrentRaw := 1024,
                 batteryVoltageRaw := 1800, chargeStatus := 1 } }

/-- Scheduler state at boot: boot device state, both tick clocks zero. -/
def outageState : FullState :=
  { dev := bootState, lastSensorRead := 0, lastMqttPublish := 0 }

/-! ## Helper lemmas -/

lemma reconnectMQTT_alwaysFail (cr : Nat → Bool)
    (h : ∀ j, cr j = false) :
    ∀ fuel k, reconnectMQTT cr k fuel = (false, fuel, failTrace fuel) := by
  intro fuel
  induction fuel with
  | zero => intro k; rfl
  | succ n ih =>
    intro k
    simp only [reconnectMQTT, h k, Bool.false_eq_true, if_false, ih (k + 1),
      failTrace]

lemma failTrace_filter_none (p : Event → Bool)
    (h1 : p Event.connectAttempt = false)
    (h2 : p (Event.delayMs 5000) = false) :
    ∀ n, (failTrace n).filter p = [] := by
  intro n
  induction n with
  | zero => rfl
  | succ m ih => simp [failTrace, List.filter, h1, h2, ih]

lemma failTrace_filter_delay :
    ∀ n, (failTrace n).filter isDelay =
      List.replicate n (Event.delayMs 5000) := by
  intro n
  induction n with
  | zero => rfl
  | succ m ih => simp [failTrace, List.filter, isDelay, ih, List.replicate]

lemma setupWiFiLoop_le (ws : Nat → Bool) :
    ∀ r a, setupWiFiLoop ws a r ≤ a + r := by
  intro r
  induction r with
  | zero => intro a; simp [setupWiFiLoop]
  | succ n ih =>
    intro a
    simp only [setupWiFiLoop]
    by_cases hw : ws a = true
    · rw [if_pos hw]; omega
    · rw [if_neg hw]
      have := ih (a + 1)
      omega

lemma setupWiFiLoop_early (ws : Nat → Bool) :
    ∀ r a j, a ≤ j → j < setupWiFiLoop ws a r → ws j = false := by
  intro r
  induction r with
  | zero =>
    intro a j haj hj
    simp only [setupWiFiLoop] at hj
    omega
  | succ n ih =>
    intro a j haj hj
    simp only [setupWiFiLoop] at hj
    by_cases hw : ws a = true
    · rw [if_pos hw] at hj; omega
    · rw [if_neg hw] at hj
      rcases Nat.eq_or_lt_of_le haj with h | h
      · subst h; simpa using hw
      · exact ih (a + 1) j h hj

lemma setupWiFiLoop_stop (ws : Nat → Bool) :
    ∀ r a, setupWiFiLoop ws a r < a + r →
      ws (setupWiFiLoop ws a r) = true := by
  intro r
  induction r with
  | zero => intro a h; simp only [setupWiFiLoop] at h; omega
  | succ n ih =>
    intro a h
    simp only [setupWiFiLoop] at h ⊢
    by_cases hw : ws a = true
    · rw [if_pos hw]; exact hw
    · rw [if_neg hw] at h ⊢
      exact ih (a + 1) (by omega)

lemma setupWiFiLoop_allFail (ws : Nat → Bool) (h : ∀ j, ws j = false) :
    ∀ r a, setupWiFiLoop ws a r = a + r := by
  intro r
  induction r with
  | zero => intro a; rfl
  | succ n ih =>
    intro a
    simp only [setupWiFiLoop]
    rw [if_neg (by simp [h a]), ih (a + 1)]
    omega

/-! ## Claim theorems -/

/-- Claim C1, counterexample: the claim says an unknown control payload
emits no publish on the status topic, but handleRelayControl calls
publishStatus unconditionally — on input "reboot" (connected, boot state)
the relay states and pins are unchanged, yet a status publish IS emitted. -/
theorem handleRelayControl_unknown_still_publishes :
    handleRelayControl true 0 bootState "reboot" =
      (bootState,
       [Event.statusPublish MQTT_TOPIC_STATUS
          { relay1 := false, relay2 := false, timestamp := 0 }]) ∧
    (handleRelayControl true 0 bootState "reboot").2.filter
      isStatusPublish ≠ [] := by
  exact ⟨rfl, by decide⟩

/-- Claim C1, amended: for every inbound control payload outside the four
command strings, handleRelayControl leaves both relay states and both
relay GPIO pins unchanged and performs no GPIO write, but it still calls
publishStatus, which publishes the (unchanged) relay states whenever the
client is connected. -/
theorem handleRelayControl_unknown_no_change (conn : Bool) (now : Nat)
    (s : DeviceState) (message : String)
    (h : message ∉ ["relay1_on", "relay1_off", "relay2_on", "relay2_off"]) :
    handleRelayControl conn now s message = (s, publishStatus conn now s) ∧
    (handleRelayControl conn now s message).2.filter isGpioWrite = [] ∧
    publishStatus true now s =
      [Event.statusPublish MQTT_TOPIC_STATUS
        { relay1 := s.relay1State, relay2 := s.relay2State,
          timestamp := now }] := by
  have h1 : message ≠ "relay1_on" := by intro e; exact h (by simp [e])
  have h2 : message ≠ "relay1_off" := by intro e; exact h (by simp [e])
  have h3 : message ≠ "relay2_on" := by intro e; exact h (by simp [e])
  have h4 : message ≠ "relay2_off" := by intro e; exact h (by simp [e])
  refine ⟨by simp [handleRelayControl, h1, h2, h3, h4], ?_, rfl⟩
  cases conn <;>
    simp [handleRelayControl, h1, h2, h3, h4, publishStatus, isGpioWrite]

/-- Claim C1, witness: the amended theorem applied at the unknown command
"reboot" with the client connected. -/
theorem handleRelayControl_unknown_no_change_witness :
    handleRelayControl true 7 bootState "reboot" =
      (bootState, publishStatus true 7 bootState) ∧
    (handleRelayControl true 7 bootState "reboot").2.filter isGpioWrite =
      [] ∧
    publishStatus true 7 bootState =
      [Event.statusPublish MQTT_TOPIC_STATUS
        { relay1 := bootState.relay1State, relay2 := bootState.relay2State,
          timestamp := 7 }] :=
  handleRelayControl_unknown_no_change true 7 bootState "reboot" (by decide)

/-- Claim C2: each of the four command strings sets the named relay flag
and its GPIO pin to the commanded value, leaves the other relay unchanged,
and then (client connected) emits a status publish that appears in the
trace after the GPIO write and carries the post-change relay states. -/
theorem handleRelayControl_valid_commands (s : DeviceState) (now : Nat) :
    handleRelayControl true now s "relay1_on" =
      ({ s with pinRelay1 := true, relay1State := true },
       [Event.gpioWrite RELAY_1_PIN true,
        Event.statusPublish MQTT_TOPIC_STATUS
          { relay1 := true, relay2 := s.relay2State, timestamp := now }]) ∧
    handleRelayControl true now s "relay1_off" =
      ({ s with pinRelay1 := false, relay1State := false },
       [Event.gpioWrite RELAY_1_PIN false,
        Event.statusPublish MQTT_TOPIC_STATUS
          { relay1 := false, relay2 := s.relay2State, timestamp := now }]) ∧
    handleRelayControl true now s "relay2_on" =
      ({ s with pinRelay2 := true, relay2State := true },
       [Event.gpioWrite RELAY_2_PIN true,
        Event.statusPublish MQTT_TOPIC_STATUS
          { relay1 := s.relay1State, relay2 := true, timestamp := now }]) ∧
    handleRelayControl true now s "relay2_off" =
      ({ s with pinRelay2 := false, relay2State := false },
       [Event.gpioWrite RELAY_2_PIN false,
        Event.statusPublish MQTT_TOPIC_STATUS
          { relay1 := s.relay1State, relay2 := false, timestamp := now }]) :=
  ⟨rfl, rfl, rfl, rfl⟩

/-- Claim C2, witness: the theorem applied at the boot state, time 7. -/
theorem handleRelayControl_valid_commands_witness :
    handleRelayControl true 7 bootState "relay1_on" =
      ({ bootState with pinRelay1 := true, relay1State := true },
       [Event.gpioWrite RELAY_1_PIN true,
        Event.statusPublish MQTT_TOPIC_STATUS
          { relay1 := true, relay2 := bootState.relay2State,
            timestamp := 7 }]) :=
  (handleRelayControl_valid_commands bootState 7).1

/-- Claim C9: for every inbound message whose topic differs from the
control topic, mqttCallback leaves the device state untouched and emits no
event at all (no GPIO write, no status publish), whatever the payload. -/
theorem mqttCallback_other_topic_no_effect (conn : Bool) (now : Nat)
    (s : DeviceState) (topic : String) (payload : List Char)
    (h : topic ≠ MQTT_TOPIC_CONTROL) :
    mqttCallback conn now s topic payload = (s, []) := by
  simp [mqttCallback, h]

/-- Claim C9, witness: a valid command payload arriving on the sensor
topic does nothing. -/
theorem mqttCallback_other_topic_no_effect_witness :
    mqttCallback true 0 bootState "station/001/sensor"
      ['r', 'e', 'l', 'a', 'y', '1', '_', 'o', 'n'] = (bootState, []) :=
  mqttCallback_other_topic_no_effect true 0 bootState "station/001/sensor"
    ['r', 'e', 'l', 'a', 'y', '1', '_', 'o', 'n'] (by decide)

/-- Claim C10: a valid relay command processed while the MQTT client is
not connected still changes the relay flag and GPIO pin to the commanded
value, but publishStatus returns early, so no status publish is emitted
and the change is unacknowledged. -/
theorem handleRelayControl_disconnected_unacknowledged (s : DeviceState)
    (now : Nat) :
    handleRelayControl false now s "relay1_on" =
      ({ s with pinRelay1 := true, relay1State := true },
       [Event.gpioWrite RELAY_1_PIN true]) ∧
    handleRelayControl false now s "relay1_off" =
      ({ s with pinRelay1 := false, relay1State := false },
       [Event.gpioWrite RELAY_1_PIN false]) ∧
    handleRelayControl false now s "relay2_on" =
      ({ s with pinRelay2 := true, relay2State := true },
       [Event.gpioWrite RELAY_2_PIN true]) ∧
    handleRelayControl false now s "relay2_off" =
      ({ s with pinRelay2 := false, relay2State := false },
       [Event.gpioWrite RELAY_2_PIN false]) ∧
    (∀ s2 : DeviceState, publishStatus false now s2 = []) :=
  ⟨rfl, rfl, rfl, rfl, fun _ => rfl⟩

/-- Claim C10, witness: the theorem applied at the boot state, time 3. -/
theorem handleRelayControl_disconnected_unacknowledged_witness :
    handleRelayControl false 3 bootState "relay2_on" =
      ({ bootState with pinRelay2 := true, relay2State := true },
       [Event.gpioWrite RELAY_2_PIN true]) :=
  (handleRelayControl_disconnected_unacknowledged bootState 3).2.2.1

/-- Claim C5, counterexample: the claim says one call to reconnectMQTT
with the broker unreachable makes one connect attempt, blocks at most 5 s
and returns; but unfolding two iterations of its while loop shows a second
attempt and a second 5 s delay with the function still not returned. -/
theorem reconnectMQTT_second_attempt_without_return :
    reconnectMQTT (fun _ => false) 0 2 =
      (false, 2, [Event.connectAttempt, Event.delayMs 5000,
                  Event.connectAttempt, Event.delayMs 5000]) ∧
    (reconnectMQTT (fun _ => false) 0 2).1 = false ∧
    (reconnectMQTT (fun _ => false) 0 2).2.1 ≠ 1 :=
  ⟨rfl, rfl, by decide⟩

/-- Claim C5, amended: with the broker unreachable, reconnectMQTT never
returns: for every number of loop iterations it has made exactly that many
connect attempts, each followed by a 5 s delay, and is still inside its
while loop; the loop driver therefore cannot retry across service ticks —
the retrying happens inside reconnectMQTT itself. -/
theorem reconnectMQTT_unreachable_never_returns (cr : Nat → Bool)
    (k fuel : Nat) (h : ∀ j, cr j = false) :
    reconnectMQTT cr k fuel = (false, fuel, failTrace fuel) ∧
    (failTrace fuel).filter isDelay =
      List.replicate fuel (Event.delayMs 5000) :=
  ⟨reconnectMQTT_alwaysFail cr h fuel k, failTrace_filter_delay fuel⟩

/-- Claim C5, witness: the amended theorem at an always-failing broker,
three loop iterations. -/
theorem reconnectMQTT_unreachable_never_returns_witness :
    reconnectMQTT (fun _ => false) 0 3 = (false, 3, failTrace 3) ∧
    (failTrace 3).filter isDelay =
      List.replicate 3 (Event.delayMs 5000) :=
  reconnectMQTT_unreachable_never_returns (fun _ => false) 0 3
    (fun _ => rfl)

/-- Claim C6, counterexample: the claim says success is reported exactly
for 2xx HTTP statuses, but the condition sendDataToAPI actually branches
on (main.cpp line 268) accepts ANY positive response code: 404 counts as
success there while the spec criterion rejects it.  (The C function also
returns void, not a boolean.) -/
theorem api_success_404_mismatch :
    apiSuccessIndicator 404 = true ∧ spec_apiSuccess 404 = false := by
  decide

/-- Claim C6, amended: sendDataToAPI is a silent no-op when the network is
down (no request, no event); otherwise it performs exactly one POST of the
JSON body to the configured URL; it returns no success indicator to the
caller — the response code is only checked, for logging, against
code > 0 (so non-2xx positive codes also count as success there). -/
theorem sendDataToAPI_behaviour :
    (∀ (now : Nat) (sv si bv : ℚ) (cs : Nat),
      sendDataToAPI false now sv si bv cs = []) ∧
    (∀ (now : Nat) (sv si bv : ℚ) (cs : Nat),
      sendDataToAPI true now sv si bv cs =
        [Event.httpPost API_BASE_URL
          { solarVoltage := sv, solarCurrent := si, batteryVoltage := bv,
            chargeStatus := cs, timestamp := now }]) ∧
    (∀ code : Int, apiSuccessIndicator code = true ↔ 0 < code) := by
  refine ⟨fun _ _ _ _ _ => rfl, fun _ _ _ _ _ => rfl, fun code => ?_⟩
  simp [apiSuccessIndicator]

/-- Claim C6, witness: the amended theorem evaluated at concrete inputs. -/
theorem sendDataToAPI_behaviour_witness :
    sendDataToAPI false 0 1 2 3 4 = [] ∧
    (apiSuccessIndicator 250 = true ↔ (0 : Int) < 250) :=
  ⟨sendDataToAPI_behaviour.1 0 1 2 3 4, sendDataToAPI_behaviour.2.2 250⟩

/-- Claim C7, counterexample: with the transport disconnected and the
broker unreachable, the sample tick due at millis() = 10000 does NOT run:
loop() blocks inside reconnectMQTT before reaching the tick, so no ADC
read and no HTTP POST happens, refuting "the 5 s sample tick still runs
readSensors and still attempts the HTTP POST". -/
theorem loop_disconnected_skips_sample_tick :
    SENSOR_READ_INTERVAL ≤ udiff outageEnv.now outageState.lastSensorRead ∧
    outageEnv.wifiConnected = true ∧
    (loopIter outageEnv 3 outageState).1 = false ∧
    (loopIter outageEnv 3 outageState).2.1 = outageState ∧
    (loopIter outageEnv 3 outageState).2.2.filter isAnalogSample = [] ∧
    (loopIter outageEnv 3 outageState).2.2.filter isHttpPost = [] := by
  decide

/-- Claim C7, amended: publishSensorData run while disconnected publishes
nothing and changes nothing; but while the transport stays disconnected
with the broker unreachable, a loop() iteration never completes — it
blocks inside reconnectMQTT with the scheduler state unchanged, so the 5 s
sample tick (ADC reads, HTTP POST) and the 10 s publish tick do not run at
all until the connection is re-established. -/
theorem loop_blocked_while_disconnected (env : LoopEnv) (fuel : Nat)
    (st : FullState) (h1 : env.mqttConnected = false)
    (h2 : ∀ k, env.connectResult k = false) :
    (∀ (now : Nat) (s : DeviceState) (inp : SensorInputs),
      publishSensorData false now s inp = []) ∧
    (loopIter env fuel st).1 = false ∧
    (loopIter env fuel st).2.1 = st ∧
    (loopIter env fuel st).2.2.filter isAnalogSample = [] ∧
    (loopIter env fuel st).2.2.filter isHttpPost = [] ∧
    (loopIter env fuel st).2.2.filter isSensorPublish = [] := by
  have hrec := reconnectMQTT_alwaysFail env.connectResult h2 fuel 0
  have hloop : loopIter env fuel st = (false, st, failTrace fuel) := by
    simp [loopIter, h1, hrec]
  refine ⟨fun _ _ _ => rfl, ?_, ?_, ?_, ?_, ?_⟩ <;> rw [hloop] <;>
    exact failTrace_filter_none _ rfl rfl fuel

/-- Claim C7, witness: the amended theorem at the outage environment. -/
theorem loop_blocked_while_disconnected_witness :
    (loopIter outageEnv 4 outageState).1 = false ∧
    (loopIter outageEnv 4 outageState).2.2.filter isAnalogSample = [] :=
  ⟨(loop_blocked_while_disconnected outageEnv 4 outageState rfl
      (fun _ => rfl)).2.1,
   (loop_blocked_while_disconnected outageEnv 4 outageState rfl
      (fun _ => rfl)).2.2.2.1⟩

/-- Claim C8: setupWiFi always terminates within 20 attempts of 500 ms
each (at most 10 s of delay), returns as soon as Wi-Fi reports connected,
runs all 20 attempts when Wi-Fi never associates, and boot (setup) still
completes with both relays off. -/
theorem setupWiFi_terminates_bounded (ws : Nat → Bool) :
    (setupWiFi ws).1 ≤ 20 ∧
    (setupWiFi ws).2 = 500 * (setupWiFi ws).1 ∧
    (setupWiFi ws).2 ≤ 10000 ∧
    (∀ j, j < (setupWiFi ws).1 → ws j = false) ∧
    ((setupWiFi ws).1 < 20 → ws ((setupWiFi ws).1) = true) ∧
    ((∀ j, ws j = false) → setupWiFi ws = (20, 10000)) ∧
    (setupBoot ws).1 = bootState := by
  have hle : setupWiFiLoop ws 0 20 ≤ 20 := by
    have := setupWiFiLoop_le ws 20 0
    omega
  refine ⟨hle, rfl, ?_, ?_, ?_, ?_, rfl⟩
  · show 500 * setupWiFiLoop ws 0 20 ≤ 10000
    omega
  · intro j hj
    exact setupWiFiLoop_early ws 20 0 j (Nat.zero_le j) hj
  · intro hlt
    exact setupWiFiLoop_stop ws 20 0 (by simpa using hlt)
  · intro hall
    have h20 := setupWiFiLoop_allFail ws hall 20 0
    simp [setupWiFi, h20]

/-- Claim C8, witness: with Wi-Fi never associating, setupWiFi returns
after exactly 20 attempts and 10 s of delay. -/
theorem setupWiFi_terminates_bounded_witness :
    (setupWiFi (fun _ => false)).1 ≤ 20 ∧
    setupWiFi (fun _ => false) = (20, 10000) :=
  ⟨(setupWiFi_terminates_bounded (fun _ => false)).1,
   (setupWiFi_terminates_bounded (fun _ => false)).2.2.2.2.2.1
     (fun _ => rfl)⟩

/-- Claim C4, counterexample: with raw inputs (2048, 1024, 1800, charge 1)
at the boot state, the published sensor payload rounds (3 decimals) to
solarVoltage 18.154, solarCurrent 4.461, batteryVoltage 15.956 — not the
18.133 / 4.468 / 15.933 the claim expects. -/
theorem happy_telemetry_payload_differs :
    (sensorPayloads (publishSensorData true 0 bootState
        { solarVoltageRaw := 2048, solarCurrentRaw := 1024,
          batteryVoltageRaw := 1800, chargeStatus := 1 })).map
      (fun p => (roundMilli p.solarVoltage, roundMilli p.solarCurrent,
        roundMilli p.batteryVoltage, p.chargeStatus, p.relay1State,
        p.relay2State)) =
      [((18154 : ℤ), (4461 : ℤ), (15956 : ℤ), 1, false, false)] ∧
    (18154 : ℤ) ≠ 18133 ∧ (4461 : ℤ) ≠ 4468 ∧ (15956 : ℤ) ≠ 15933 := by
  constructor
  · simp only [sensorPayloads, publishSensorData, bootState,
      List.filterMap_cons, List.filterMap_nil, List.map_cons, List.map_nil,
      if_neg, Bool.true_eq_false, not_false_eq_true, ite_false, ite_true]
    norm_num [roundMilli, SOLAR_VOLTAGE_RATIO, BATTERY_VOLTAGE_RATIO,
      CURRENT_SENSOR_RATIO]
  · exact ⟨by decide, by decide, by decide⟩

/-- Claim C4, amended: with raw inputs (2048, 1024, 1800, charge 1) at the
boot state, publishSensorData publishes one payload on the sensor topic
whose values rounded to 3 decimals are solarVoltage 18.154, solarCurrent
4.461, batteryVoltage 15.956, with chargeStatus 1 and both relay fields
false. -/
theorem happy_telemetry_payload_values :
    publishSensorData true 0 bootState
        { solarVoltageRaw := 2048, solarCurrentRaw := 1024,
          batteryVoltageRaw := 1800, chargeStatus := 1 } =
      [Event.analogSample SOLAR_VOLTAGE_PIN,
       Event.analogSample SOLAR_CURRENT_PIN,
       Event.analogSample BATTERY_VOLTAGE_PIN,
       Event.digitalSample CHARGE_STATUS_PIN,
       Event.sensorPublish MQTT_TOPIC_SENSOR_DATA
         { solarVoltage := 123904 / 6825, solarCurrent := 45056 / 10101,
           batteryVoltage := 1452 / 91, chargeStatus := 1,
           relay1State := false, relay2State := false, timestamp := 0 }] ∧
    roundMilli (123904 / 6825) = 18154 ∧
    roundMilli (45056 / 10101) = 4461 ∧
    roundMilli (1452 / 91) = 15956 := by
  refine ⟨?_, ?_, ?_, ?_⟩
  · norm_num [publishSensorData, bootState, SOLAR_VOLTAGE_RATIO,
      BATTERY_VOLTAGE_RATIO, CURRENT_SENSOR_RATIO]
  · norm_num [roundMilli]
  · norm_num [roundMilli]
  · norm_num [roundMilli]

end SolarCharge
